import Mathlib

/-!
# Linow: a shallow embedding of `Linow.h`

The header keeps four process-wide variables (`lineShader`, `vao`, `vbo`, `lines`)
and talks to OpenGL.  Here the four variables are the fields of `State`, every
OpenGL call the header makes is recorded as a `GLCall` in the order it is made, and
the values OpenGL returns (object names, compile status, uniform locations) are read
from a `Backend`.

Conventions.
* `float` values are only copied by the header, never computed with, so the scalar
  type `F` is a parameter; the literals `0` and `1` are its `Zero` and `One`.
* `Str` is `std::string`: a sequence of characters that may contain the NUL
  character; `c_str` is the C string it is read as (up to the first NUL).
* Sizes are natural numbers.  `sizeof(float) = 4`, so `sizeof(Vec3) = 12` and
  `sizeof(Vec4) = 16` (both the built-in structs and the GLM types).  `lines.size()`
  is passed on as `int`; the conversion is the identity for batches below `2^31`
  records, which is the range the model is meant for.
* Calling a member through an empty `unique_ptr` and an exception leaving
  `std::map::at` end a run with a `Fault`.
-/

namespace Linow

/-! ## Vectors and line records -/

/-- The header's `Vec2`. -/
structure Vec2 (F : Type) where
  x : F
  y : F
  deriving DecidableEq, Repr

/-- The header's `Vec3`. -/
structure Vec3 (F : Type) where
  x : F
  y : F
  z : F
  deriving DecidableEq, Repr

/-- The header's `Vec4`. -/
structure Vec4 (F : Type) where
  x : F
  y : F
  z : F
  w : F
  deriving DecidableEq, Repr

/-- Alias `using Color = Vec4`. -/
abbrev Color (F : Type) := Vec4 F

/-- The colour `Color(1.0f, 0.0f, 0.0f, 1.0f)` used as default argument. -/
def defaultColor {F : Type} [Zero F] [One F] : Color F := ⟨1, 0, 0, 1⟩

/-- The record `struct Line`: `Array<Vec3, 2> points` followed by `Color color`. -/
structure Line (F : Type) where
  points0 : Vec3 F
  points1 : Vec3 F
  color : Color F
  deriving DecidableEq, Repr

/-- The constructor `Line(start, end, color)`. -/
def Line.new {F : Type} (start stop : Vec3 F) (color : Color F) : Line F :=
  { points0 := start, points1 := stop, color := color }

/-- The argument packs `lines.emplace_back` accepts: the two points (the colour
defaulted), the two points and a colour, or a `Line` to copy. -/
inductive LineArgs (F : Type) where
  | points (start stop : Vec3 F)
  | pointsColor (start stop : Vec3 F) (color : Color F)
  | copy (line : Line F)
  deriving DecidableEq, Repr

/-- The `Line` that `emplace_back(args...)` constructs in place. -/
def LineArgs.construct {F : Type} [Zero F] [One F] : LineArgs F → Line F
  | .points start stop => Line.new start stop defaultColor
  | .pointsColor start stop color => Line.new start stop color
  | .copy line => line

/-! ## Strings and the uniform table -/

/-- A `std::string`. -/
abbrev Str := List Char

/-- The NUL character. -/
def NUL : Char := Char.ofNat 0

/-- The string `std::string(s.c_str())`: the characters before the first NUL. -/
def c_str (s : Str) : Str := s.takeWhile (fun c => c != NUL)

/-- A `std::map<Str, GLuint>` as a list of entries with distinct keys. -/
abbrev UniformMap := List (Str × Nat)

/-- The call `std::map::insert`: nothing changes when the key is present. -/
def UniformMap.insert (m : UniformMap) (key : Str) (value : Nat) : UniformMap :=
  if m.any (fun e => e.1 == key) then m else m ++ [(key, value)]

/-- The call `std::map::at`: `none` stands for the `std::out_of_range` it throws. -/
def UniformMap.at (m : UniformMap) (key : Str) : Option Nat :=
  (m.find? (fun e => e.1 == key)).map (fun e => e.2)

/-! ## OpenGL calls -/

/-- The OpenGL constants the header names. -/
inductive GLenum where
  | GL_FRONT_AND_BACK
  | GL_LINE
  | GL_FILL
  | GL_TRIANGLES
  | GL_ARRAY_BUFFER
  | GL_FLOAT
  | GL_DYNAMIC_DRAW
  | GL_VERTEX_SHADER
  | GL_FRAGMENT_SHADER
  | GL_COMPILE_STATUS
  | GL_INFO_LOG_LENGTH
  deriving DecidableEq, Repr

/-- One OpenGL call with its arguments.  A `const float*` matrix is the list of
floats it points to; the data pointer of `glBufferSubData` is the vector it comes
from. -/
inductive GLCall (F : Type) where
  | glCreateProgram
  | glCreateShader (shaderType : GLenum)
  | glShaderSource (shader : Nat) (code : Str)
  | glCompileShader (shader : Nat)
  | glGetShaderiv (shader : Nat) (pname : GLenum)
  | glGetShaderInfoLog (shader : Nat)
  | glAttachShader (program shader : Nat)
  | glLinkProgram (program : Nat)
  | glDetachShader (program shader : Nat)
  | glDeleteShader (shader : Nat)
  | glValidateProgram (program : Nat)
  | glGetUniformLocation (program : Nat) (name : Str)
  | glUseProgram (program : Nat)
  | glDeleteProgram (program : Nat)
  | glUniformMatrix4fv (location : Int) (count : Nat) (transpose : Bool) (value : List F)
  | glGenBuffers
  | glBindBuffer (target : GLenum) (buffer : Nat)
  | glVertexAttribPointer (index size : Nat) (type : GLenum) (normalized : Bool)
      (stride offset : Nat)
  | glVertexAttribDivisor (index divisor : Nat)
  | glBufferData (target : GLenum) (size : Nat) (usage : GLenum)
  | glBufferSubData (target : GLenum) (offset size : Nat) (data : List (Line F))
  | glEnableVertexAttribArray (index : Nat)
  | glDeleteBuffers (buffer : Nat)
  | glGenVertexArrays
  | glBindVertexArray (array : Nat)
  | glDeleteVertexArrays (array : Nat)
  | glPolygonMode (face mode : GLenum)
  | glDrawArraysInstanced (mode : GLenum) (first count instancecount : Nat)
  deriving DecidableEq, Repr

/-- What OpenGL returns to the header: the names of the objects it creates, the
compile status of a shader, and the location of a uniform given by its C name. -/
structure Backend where
  createProgram : Nat
  createShader : GLenum → Nat
  compileStatus : Nat → Bool
  getUniformLocation : Nat → Str → Int
  genBuffer : Nat
  genVertexArray : Nat

/-- Conversion of an `int` to `GLuint`. -/
def toGLuint (i : Int) : Nat := (i % 2 ^ 32).toNat

/-- Conversion of a `GLuint` to `GLint`. -/
def toGLint (u : Nat) : Int :=
  if u % 2 ^ 32 < 2 ^ 31 then ((u % 2 ^ 32 : Nat) : Int) else ((u % 2 ^ 32 : Nat) : Int) - 2 ^ 32

/-- Size in bytes of a `float`. -/
def sizeof_float : Nat := 4

/-- Size in bytes of a `Vec3`: three floats. -/
def sizeof_Vec3 : Nat := 3 * sizeof_float

/-- Size in bytes of a `Vec4`: four floats. -/
def sizeof_Vec4 : Nat := 4 * sizeof_float

/-- Size in bytes of a `Line`: two `Vec3` and a `Color`. -/
def sizeof_Line : Nat := 2 * sizeof_Vec3 + sizeof_Vec4

/-! ## The embedded shader sources -/

/-- The constant `vsCode`. -/
def vsCode : Str := String.toList (
  "\n  #version 440 core\n\n" ++
  "  layout (location = 0) in vec3 in_Point0;\n" ++
  "  layout (location = 1) in vec3 in_Point1;\n" ++
  "  layout (location = 2) in vec4 in_Color;\n\n" ++
  "  uniform mat4 u_Proj;\n" ++
  "  uniform mat4 u_View;\n" ++
  "  out vec4 color;\n" ++
  "  void main() \x7b\n" ++
  "    color = in_Color;\n" ++
  "    gl_Position = u_Proj * u_View * vec4(gl_VertexID == 0 ? in_Point0 : in_Point1, 1.0);\n" ++
  "  \x7d\n")

/-- The constant `fsCode`. -/
def fsCode : Str := String.toList (
  "\n  #version 440 core\n" ++
  "  in vec4 color;\n" ++
  "  out vec4 out_Color;\n" ++
  "  uniform vec4 u_Color;\n" ++
  "  void main() \x7b\n" ++
  "    out_Color = color;\n" ++
  "  \x7d\n")

/-- The uniform name `"u_Proj"`. -/
def u_Proj : Str := ['u', '_', 'P', 'r', 'o', 'j']

/-- The uniform name `"u_View"`. -/
def u_View : Str := ['u', '_', 'V', 'i', 'e', 'w']

/-! ## class Shader -/

/-- The private members of `class Shader`. -/
structure Shader where
  handle : Nat
  vsHandle : Nat
  fsHandle : Nat
  uniformLocations : UniformMap
  deriving DecidableEq, Repr

/-- The method `Shader::CreateShader`, run while the program name is `handle`:
the name it returns (`-1` as `GLuint` when the stage does not compile) and its
OpenGL calls. -/
def Shader.CreateShader {F : Type} (be : Backend) (handle : Nat) (shaderCode : Str)
    (shaderType : GLenum) : Nat × List (GLCall F) :=
  let shaderID := be.createShader shaderType
  let compile : List (GLCall F) :=
    [.glCreateShader shaderType, .glShaderSource shaderID (c_str shaderCode),
     .glCompileShader shaderID, .glGetShaderiv shaderID .GL_COMPILE_STATUS]
  if be.compileStatus shaderID then
    (shaderID, compile ++ [.glAttachShader handle shaderID])
  else
    (toGLuint (-1),
      compile ++ [.glGetShaderiv shaderID .GL_INFO_LOG_LENGTH, .glGetShaderInfoLog shaderID])

/-- The method `Shader::Link`.  The `if` guards the detach only; the delete that
follows it on the same line always runs. -/
def Shader.Link {F : Type} (handle vsHandle fsHandle : Nat) : List (GLCall F) :=
  [.glLinkProgram handle] ++
  (if vsHandle != 0 then [.glDetachShader handle vsHandle] else []) ++
  [.glDeleteShader vsHandle] ++
  (if fsHandle != 0 then [.glDetachShader handle fsHandle] else []) ++
  [.glDeleteShader fsHandle] ++
  [.glValidateProgram handle]

/-- The method `Shader::CreateUniform`: the new table and the OpenGL call.  Both
the lookup and the key of the table use `name.c_str()`. -/
def Shader.CreateUniform {F : Type} (be : Backend) (handle : Nat) (table : UniformMap)
    (name : Str) : UniformMap × List (GLCall F) :=
  let location := be.getUniformLocation handle (c_str name)
  (table.insert (c_str name) (toGLuint location), [.glGetUniformLocation handle (c_str name)])

/-- The loop `for (i < uniforms.size()) CreateUniform(uniforms[i])`. -/
def Shader.createUniforms {F : Type} (be : Backend) (handle : Nat) :
    UniformMap → List Str → UniformMap × List (GLCall F)
  | table, [] => (table, [])
  | table, name :: rest =>
    let r := Shader.CreateUniform be handle table name
    let rs := Shader.createUniforms be handle r.1 rest
    (rs.1, r.2 ++ rs.2)

/-- The constructor `Shader(vsCode, fsCode, args...)`; `uniforms` is the vector
built from `args...`. -/
def Shader.new {F : Type} (be : Backend) (vs fs : Str) (uniforms : List Str) :
    Shader × List (GLCall F) :=
  let handle := be.createProgram
  let v := Shader.CreateShader be handle vs .GL_VERTEX_SHADER
  let f := Shader.CreateShader be handle fs .GL_FRAGMENT_SHADER
  let u := Shader.createUniforms be handle [] uniforms
  ({ handle := handle, vsHandle := v.1, fsHandle := f.1, uniformLocations := u.1 },
    [.glCreateProgram] ++ v.2 ++ f.2 ++ Shader.Link handle v.1 f.1 ++ u.2)

/-- The method `Shader::Bind`. -/
def Shader.Bind {F : Type} (sh : Shader) : List (GLCall F) := [.glUseProgram sh.handle]

/-- The method `Shader::Unbind`. -/
def Shader.Unbind {F : Type} (_sh : Shader) : List (GLCall F) := [.glUseProgram 0]

/-- The destructor `~Shader`. -/
def Shader.destroy {F : Type} (sh : Shader) : List (GLCall F) :=
  sh.Unbind ++ [.glDeleteProgram sh.handle]

/-- The method `Shader::SetMat4x4`: `none` when `uniformLocations.at(name)` throws,
else the one OpenGL call; the `GLuint` read from the table is passed as `GLint`. -/
def Shader.SetMat4x4 {F : Type} (sh : Shader) (name : Str) (matrix : List F) :
    Option (List (GLCall F)) :=
  match sh.uniformLocations.at name with
  | none => none
  | some location => some [.glUniformMatrix4fv (toGLint location) 1 false matrix]

/-! ## class VBO -/

/-- The private members of `class VBO`. -/
structure VBO where
  handle : Nat
  attributes : List Nat
  deriving DecidableEq, Repr

/-- The byte size the constructor passes to `glBufferData`, as the header writes it:
`sizeof(Vec3) * 2 + sizeof(Vec4) * 512`. -/
def VBO.allocationSize : Nat := sizeof_Vec3 * 2 + sizeof_Vec4 * 512

/-- The constructor `VBO(attribute = 0)`; the argument is not used. -/
def VBO.new {F : Type} (be : Backend) (_attribute : Nat) : VBO × List (GLCall F) :=
  let handle := be.genBuffer
  ({ handle := handle, attributes := [0, 1, 2] },
    [.glGenBuffers,
     .glBindBuffer .GL_ARRAY_BUFFER handle,
     .glVertexAttribPointer 0 3 .GL_FLOAT false (sizeof_Vec3 * 2 + sizeof_Vec4) 0,
     .glVertexAttribDivisor 0 1,
     .glVertexAttribPointer 1 3 .GL_FLOAT false (sizeof_Vec3 * 2 + sizeof_Vec4)
       (3 * sizeof_float),
     .glVertexAttribDivisor 1 1,
     .glVertexAttribPointer 2 4 .GL_FLOAT false (sizeof_Vec3 * 2 + sizeof_Vec4)
       (3 * sizeof_float + 3 * sizeof_float),
     .glVertexAttribDivisor 2 1,
     .glBufferData .GL_ARRAY_BUFFER VBO.allocationSize .GL_DYNAMIC_DRAW,
     .glBindBuffer .GL_ARRAY_BUFFER 0])

/-- The method `VBO::Bind`. -/
def VBO.Bind {F : Type} (vb : VBO) : List (GLCall F) :=
  [.glBindBuffer .GL_ARRAY_BUFFER vb.handle] ++
    vb.attributes.map (fun attrib => .glEnableVertexAttribArray attrib)

/-- The method `VBO::Unbind`. -/
def VBO.Unbind {F : Type} (_vb : VBO) : List (GLCall F) := [.glBindBuffer .GL_ARRAY_BUFFER 0]

/-- The destructor `~VBO`. -/
def VBO.destroy {F : Type} (vb : VBO) : List (GLCall F) :=
  vb.Unbind ++ [.glDeleteBuffers vb.handle]

/-- The byte size `Update` passes to `glBufferSubData`, as the header writes it:
`sizeof(Vec3) * 2 + sizeof(Vec4) * amount`. -/
def VBO.updateSize (amount : Nat) : Nat := sizeof_Vec3 * 2 + sizeof_Vec4 * amount

/-- The method `VBO::Update<T, bind>(vec, amount, pos)`. -/
def VBO.Update {F : Type} (vb : VBO) (bind : Bool) (vec : List (Line F)) (amount pos : Nat) :
    List (GLCall F) :=
  (if bind then vb.Bind else []) ++
    [.glBufferSubData .GL_ARRAY_BUFFER pos (VBO.updateSize amount) vec]

/-! ## class VAO -/

/-- The private members of `class VAO`; its `vbo` member is never assigned. -/
structure VAO where
  handle : Nat
  vbo : Option VBO
  deriving DecidableEq, Repr

/-- The constructor `VAO()`. -/
def VAO.new {F : Type} (be : Backend) : VAO × List (GLCall F) :=
  ({ handle := be.genVertexArray, vbo := none }, [.glGenVertexArrays])

/-- The method `VAO::Bind`. -/
def VAO.Bind {F : Type} (va : VAO) : List (GLCall F) := [.glBindVertexArray va.handle]

/-- The method `VAO::Unbind`. -/
def VAO.Unbind {F : Type} (_va : VAO) : List (GLCall F) := [.glBindVertexArray 0]

/-- The destructor `~VAO`, followed by the destruction of its `vbo` member. -/
def VAO.destroy {F : Type} (va : VAO) : List (GLCall F) :=
  va.Unbind ++ [.glDeleteVertexArrays va.handle] ++
    (match va.vbo with
     | none => []
     | some vb => vb.destroy)

/-! ## The global variables and the interface -/

/-- The global variables `vao`, `vbo`, `lines`, `lineShader`; an empty `unique_ptr`
is `none`. -/
structure State (F : Type) where
  vao : Option VAO
  vbo : Option VBO
  lines : List (Line F)
  lineShader : Option Shader
  deriving DecidableEq, Repr

/-- The variables as the program starts: empty pointers and an empty vector. -/
def State.initial {F : Type} : State F :=
  { vao := none, vbo := none, lines := [], lineShader := none }

/-- How a run can end other than by returning. -/
inductive Fault where
  | nullDereference
  | out_of_range
  deriving DecidableEq, Repr

/-- The OpenGL calls of a run, in order, and the fault that ended it, if any. -/
structure Run (F : Type) where
  calls : List (GLCall F)
  fault : Option Fault
  deriving DecidableEq, Repr

/-- What `unique_ptr::reset` and move assignment do to the object held before. -/
def release {α β : Type} (old : Option α) (destroy : α → List β) : List β :=
  match old with
  | none => []
  | some object => destroy object

/-- The function `Init(projection)`. -/
def Init {F : Type} (be : Backend) (projection : List F) (s : State F) : State F × Run F :=
  let sh := Shader.new be vsCode fsCode [u_Proj, u_View]
  let s1 := { s with lineShader := some sh.1 }
  let c1 := sh.2 ++ release s.lineShader Shader.destroy ++ sh.1.Bind
  match sh.1.SetMat4x4 u_Proj projection with
  | none => (s1, ⟨c1, some .out_of_range⟩)
  | some setProj =>
    let va := VAO.new be
    let vb := VBO.new be 0
    ({ s1 with vao := some va.1, vbo := some vb.1 },
      ⟨c1 ++ setProj ++ va.2 ++ release s.vao VAO.destroy ++ va.1.Bind ++
        vb.2 ++ release s.vbo VBO.destroy, none⟩)

/-- The function `Render(projection, view)`. -/
def Render {F : Type} (s : State F) (projection view : List F) : Run F :=
  let c0 : List (GLCall F) := [.glPolygonMode .GL_FRONT_AND_BACK .GL_LINE]
  match s.lineShader with
  | none => ⟨c0, some .nullDereference⟩
  | some sh =>
    let c1 := c0 ++ sh.Bind
    match sh.SetMat4x4 u_Proj projection with
    | none => ⟨c1, some .out_of_range⟩
    | some setProj =>
      match sh.SetMat4x4 u_View view with
      | none => ⟨c1 ++ setProj, some .out_of_range⟩
      | some setView =>
        match s.vao with
        | none => ⟨c1 ++ setProj ++ setView, some .nullDereference⟩
        | some va =>
          match s.vbo with
          | none => ⟨c1 ++ setProj ++ setView ++ va.Bind, some .nullDereference⟩
          | some vb =>
            ⟨c1 ++ setProj ++ setView ++ va.Bind ++
              vb.Update true s.lines s.lines.length 0 ++
              [.glDrawArraysInstanced .GL_TRIANGLES 0 3 s.lines.length,
               .glPolygonMode .GL_FRONT_AND_BACK .GL_FILL], none⟩

/-- The function `Clear()`. -/
def Clear {F : Type} (s : State F) : State F := { s with lines := [] }

/-- The function `Shutdown()`: the new variables and the OpenGL calls of the
destructors it runs. -/
def Shutdown {F : Type} (s : State F) : State F × List (GLCall F) :=
  let s1 := { s with lineShader := none }
  let s2 := { s1 with vao := none }
  let s3 := { s2 with vbo := none }
  (Clear s3,
    release s.lineShader Shader.destroy ++ release s.vao VAO.destroy ++
      release s.vbo VBO.destroy)

/-- The function template `AddLine(args...)`: `lines.emplace_back(args...)`. -/
def AddLine {F : Type} [Zero F] [One F] (s : State F) (args : LineArgs F) : State F :=
  { s with lines := s.lines ++ [args.construct] }

/-- The function `AddQuad(Vec3 start, Vec3 end, Color color)`, the only `AddQuad`
the header defines. -/
def AddQuad {F : Type} [Zero F] [One F] (s : State F) (start stop : Vec3 F) (color : Color F) :
    State F :=
  let left := Line.new start ⟨start.x, stop.y, 0⟩ color
  let right := Line.new ⟨stop.x, start.y, 0⟩ stop color
  let top := Line.new start ⟨stop.x, start.y, 0⟩ color
  let bottom := Line.new ⟨start.x, stop.y, 0⟩ stop color
  let s1 := AddLine s (.copy left)
  let s2 := AddLine s1 (.copy right)
  let s3 := AddLine s2 (.copy top)
  AddLine s3 (.copy bottom)

/-- A call that changes the batch. -/
inductive BatchOp (F : Type) where
  | clear
  | addLine (args : LineArgs F)
  | addQuad (start stop : Vec3 F) (color : Color F)
  deriving DecidableEq, Repr

/-- Run one batch call. -/
def BatchOp.run {F : Type} [Zero F] [One F] (s : State F) : BatchOp F → State F
  | .clear => Clear s
  | .addLine args => AddLine s args
  | .addQuad start stop color => AddQuad s start stop color

/-- Run a sequence of batch calls, first to last. -/
def runOps {F : Type} [Zero F] [One F] (s : State F) (ops : List (BatchOp F)) : State F :=
  ops.foldl BatchOp.run s

/-- Records pending after one more batch call, given the number pending before it:
`Clear` drops them all, `AddLine` adds one, `AddQuad` adds four. -/
def pendingAfter {F : Type} (n : Nat) : BatchOp F → Nat
  | .clear => 0
  | .addLine _ => n + 1
  | .addQuad _ _ _ => n + 4

/-- Records added by a sequence of batch calls since its last `Clear`. -/
def pendingCount {F : Type} (ops : List (BatchOp F)) : Nat := ops.foldl pendingAfter 0

/-! ## Sample inputs -/

/-- A backend in which every stage compiles: program 1, shaders 2 and 3, `u_Proj` at
location 0, `u_View` at location 1, no other uniform, buffer 4, vertex array 5. -/
def sampleBackend : Backend where
  createProgram := 1
  createShader := fun shaderType => if shaderType = .GL_VERTEX_SHADER then 2 else 3
  compileStatus := fun _ => true
  getUniformLocation := fun _ name => if name = u_Proj then 0 else if name = u_View then 1 else -1
  genBuffer := 4
  genVertexArray := 5

/-- A uniform name with a NUL character in it: `a`, NUL, `b`. -/
def nameWithNUL : Str := ['a', NUL, 'b']

/-- The 4×4 identity matrix, column-major. -/
def identityMatrix : List Int := [1, 0, 0, 0, 0, 1, 0, 0, 0, 0, 1, 0, 0, 0, 0, 1]

/-- The line `(0,0,0)-(25,25,0)` of colour `(0,0,1,1)` from the usage note. -/
def sampleLine : LineArgs Int := .pointsColor ⟨0, 0, 0⟩ ⟨25, 25, 0⟩ ⟨0, 0, 1, 1⟩

/-- Two `AddLine` calls. -/
def twoLines : List (BatchOp Int) := [.addLine sampleLine, .addLine sampleLine]

/-! ## Lemmas -/

section Lemmas

variable {F : Type} [Zero F] [One F]

theorem AddLine_lines (s : State F) (args : LineArgs F) :
    (AddLine s args).lines = s.lines ++ [args.construct] := rfl

theorem AddQuad_lines (s : State F) (start stop : Vec3 F) (color : Color F) :
    (AddQuad s start stop color).lines =
      s.lines ++ [Line.new start ⟨start.x, stop.y, 0⟩ color,
                  Line.new ⟨stop.x, start.y, 0⟩ stop color,
                  Line.new start ⟨stop.x, start.y, 0⟩ color,
                  Line.new ⟨start.x, stop.y, 0⟩ stop color] := by
  simp [AddQuad, AddLine, LineArgs.construct]

theorem BatchOp.run_length (s : State F) (op : BatchOp F) :
    (op.run s).lines.length = pendingAfter s.lines.length op := by
  cases op with
  | clear => rfl
  | addLine args => simp [BatchOp.run, AddLine_lines, pendingAfter]
  | addQuad start stop color => simp [BatchOp.run, AddQuad_lines, pendingAfter]

theorem runOps_length (ops : List (BatchOp F)) (s : State F) :
    (runOps s ops).lines.length = ops.foldl pendingAfter s.lines.length := by
  induction ops generalizing s with
  | nil => rfl
  | cons op rest ih =>
    show (runOps (op.run s) rest).lines.length = _
    rw [ih, BatchOp.run_length]
    rfl

theorem BatchOp.run_handles (s : State F) (op : BatchOp F) :
    (op.run s).lineShader = s.lineShader ∧ (op.run s).vao = s.vao ∧
      (op.run s).vbo = s.vbo := by
  cases op <;> exact ⟨rfl, rfl, rfl⟩

theorem runOps_handles (ops : List (BatchOp F)) (s : State F) :
    (runOps s ops).lineShader = s.lineShader ∧ (runOps s ops).vao = s.vao ∧
      (runOps s ops).vbo = s.vbo := by
  induction ops generalizing s with
  | nil => exact ⟨rfl, rfl, rfl⟩
  | cons op rest ih =>
    show (runOps (op.run s) rest).lineShader = _ ∧ (runOps (op.run s) rest).vao = _ ∧
      (runOps (op.run s) rest).vbo = _
    obtain ⟨h1, h2, h3⟩ := ih (op.run s)
    obtain ⟨g1, g2, g3⟩ := BatchOp.run_handles s op
    exact ⟨h1.trans g1, h2.trans g2, h3.trans g3⟩

end Lemmas

theorem pendingAfter_foldl_replicate_addLine {F : Type} (args : LineArgs F) (k n : Nat) :
    (List.replicate k (BatchOp.addLine args)).foldl pendingAfter n = n + k := by
  induction k generalizing n with
  | zero => rfl
  | succ k ih =>
    rw [List.replicate_succ, List.foldl_cons, ih]
    simp [pendingAfter]
    omega

theorem UniformMap.at_eq_none_iff (m : UniformMap) (key : Str) :
    m.at key = none ↔ key ∉ m.map Prod.fst := by
  simp only [UniformMap.at, Option.map_eq_none', List.find?_eq_none, List.mem_map, not_exists,
    not_and]
  constructor
  · intro h e he heq
    exact h e he (by simp [heq])
  · intro h e he heq
    exact h e he (by simpa using heq)

theorem UniformMap.mem_keys_insert (m : UniformMap) (key : Str) (value : Nat) (k : Str) :
    k ∈ (m.insert key value).map Prod.fst ↔ k ∈ m.map Prod.fst ∨ k = key := by
  unfold UniformMap.insert
  split
  · rename_i h
    constructor
    · exact Or.inl
    · rintro (h1 | h1)
      · exact h1
      · subst h1
        simp only [List.any_eq_true, beq_iff_eq] at h
        obtain ⟨e, he, heq⟩ := h
        exact List.mem_map.mpr ⟨e, he, heq⟩
  · simp

theorem Shader.mem_keys_createUniforms {F : Type} (be : Backend) (handle : Nat)
    (names : List Str) (table : UniformMap) (k : Str) :
    k ∈ (@Shader.createUniforms F be handle table names).1.map Prod.fst ↔
      k ∈ table.map Prod.fst ∨ k ∈ names.map c_str := by
  induction names generalizing table with
  | nil => simp [Shader.createUniforms]
  | cons name rest ih =>
    simp only [Shader.createUniforms, Shader.CreateUniform]
    rw [ih, UniformMap.mem_keys_insert]
    simp only [List.map_cons, List.mem_cons]
    tauto

theorem Shader.SetMat4x4_eq_none_iff {F : Type} (sh : Shader) (name : Str) (matrix : List F) :
    sh.SetMat4x4 name matrix = none ↔ name ∉ sh.uniformLocations.map Prod.fst := by
  rw [← UniformMap.at_eq_none_iff]
  unfold Shader.SetMat4x4
  cases sh.uniformLocations.at name <;> simp

theorem c_str_eq_self (s : Str) (h : NUL ∉ s) : c_str s = s := by
  unfold c_str
  rw [List.takeWhile_eq_self_iff]
  intro x hx
  simp only [bne_iff_ne, ne_eq]
  rintro rfl
  exact h hx

theorem Init_eq {F : Type} (be : Backend) (projection : List F) (s : State F) :
    (Init be projection s).1 =
        { vao := some ⟨be.genVertexArray, none⟩,
          vbo := some ⟨be.genBuffer, [0, 1, 2]⟩,
          lines := s.lines,
          lineShader := some
            ⟨be.createProgram,
             (@Shader.CreateShader F be be.createProgram vsCode .GL_VERTEX_SHADER).1,
             (@Shader.CreateShader F be be.createProgram fsCode .GL_FRAGMENT_SHADER).1,
             [(u_Proj, toGLuint (be.getUniformLocation be.createProgram u_Proj)),
              (u_View, toGLuint (be.getUniformLocation be.createProgram u_View))]⟩ } ∧
      (Init be projection s).2.fault = none :=
  ⟨rfl, rfl⟩

theorem toGLint_toGLuint (i : Int) (h1 : -2 ^ 31 ≤ i) (h2 : i < 2 ^ 31) :
    toGLint (toGLuint i) = i := by
  unfold toGLint toGLuint
  norm_num at h1 h2 ⊢
  split <;> omega

theorem Render_after_Init {F : Type} [Zero F] [One F] (be : Backend) (s0 : State F)
    (projection0 : List F) (ops : List (BatchOp F)) (projection view : List F) :
    Render (runOps (Init be projection0 s0).1 ops) projection view =
      { calls :=
          [.glPolygonMode .GL_FRONT_AND_BACK .GL_LINE,
           .glUseProgram be.createProgram,
           .glUniformMatrix4fv
             (toGLint (toGLuint (be.getUniformLocation be.createProgram u_Proj)))
             1 false projection,
           .glUniformMatrix4fv
             (toGLint (toGLuint (be.getUniformLocation be.createProgram u_View)))
             1 false view,
           .glBindVertexArray be.genVertexArray,
           .glBindBuffer .GL_ARRAY_BUFFER be.genBuffer,
           .glEnableVertexAttribArray 0,
           .glEnableVertexAttribArray 1,
           .glEnableVertexAttribArray 2,
           .glBufferSubData .GL_ARRAY_BUFFER 0
             (24 + 16 * (runOps (Init be projection0 s0).1 ops).lines.length)
             (runOps (Init be projection0 s0).1 ops).lines,
           .glDrawArraysInstanced .GL_TRIANGLES 0 3
             (runOps (Init be projection0 s0).1 ops).lines.length,
           .glPolygonMode .GL_FRONT_AND_BACK .GL_FILL],
        fault := none } := by
  obtain ⟨h1, h2, h3⟩ := runOps_handles ops (Init be projection0 s0).1
  unfold Render
  rw [h1, h2, h3]
  rfl

theorem runOps_Init_length {F : Type} [Zero F] [One F] (be : Backend)
    (projection0 : List F) (ops : List (BatchOp F)) :
    (runOps (Init be projection0 State.initial).1 ops).lines.length = pendingCount ops :=
  runOps_length ops (Init be projection0 State.initial).1

theorem Shader.new_SetMat4x4_eq_none_iff {F : Type} (be : Backend) (vs fs : Str)
    (uniforms : List Str) (name : Str) (matrix : List F) :
    (@Shader.new F be vs fs uniforms).1.SetMat4x4 name matrix = none ↔
      name ∉ uniforms.map c_str := by
  rw [Shader.SetMat4x4_eq_none_iff]
  show ¬ name ∈ (@Shader.createUniforms F be be.createProgram [] uniforms).1.map Prod.fst ↔ _
  rw [Shader.mem_keys_createUniforms]
  simp

theorem map_c_str_eq_self (uniforms : List Str) (h : ∀ u ∈ uniforms, NUL ∉ u) :
    uniforms.map c_str = uniforms := by
  induction uniforms with
  | nil => rfl
  | cons u rest ih =>
    rw [List.map_cons, c_str_eq_self u (h u (List.mem_cons_self _ _)),
      ih (fun v hv => h v (List.mem_cons_of_mem _ hv))]

/-! ## The batch: AddQuad, AddLine, Clear -/

/-- C1. `AddQuad` with the corners `(x0, y0, 0)` and `(x1, y1, 0)` and the colour `c`
leaves the records already in the batch in place and appends exactly four: the left
edge `(x0,y0)-(x0,y1)`, the right edge `(x1,y0)-(x1,y1)`, the top edge
`(x0,y0)-(x1,y0)` and the bottom edge `(x0,y1)-(x1,y1)`, each of colour `c`; so
`AddQuad((0,0), (10,20), c)` on the empty batch gives `(0,0)-(0,20)`,
`(10,0)-(10,20)`, `(0,0)-(10,0)`, `(0,20)-(10,20)`. -/
theorem AddQuad_appends_four_edges {F : Type} [Zero F] [One F] (s : State F)
    (x0 y0 x1 y1 : F) (c : Color F) :
    (AddQuad s ⟨x0, y0, 0⟩ ⟨x1, y1, 0⟩ c).lines =
        s.lines ++ [⟨⟨x0, y0, 0⟩, ⟨x0, y1, 0⟩, c⟩, ⟨⟨x1, y0, 0⟩, ⟨x1, y1, 0⟩, c⟩,
                    ⟨⟨x0, y0, 0⟩, ⟨x1, y0, 0⟩, c⟩, ⟨⟨x0, y1, 0⟩, ⟨x1, y1, 0⟩, c⟩] ∧
      (AddQuad s ⟨x0, y0, 0⟩ ⟨x1, y1, 0⟩ c).lines.length = s.lines.length + 4 ∧
      (∀ i, i < s.lines.length →
        (AddQuad s ⟨x0, y0, 0⟩ ⟨x1, y1, 0⟩ c).lines[i]? = s.lines[i]?) ∧
      ∀ color : Color ℚ,
        (AddQuad State.initial ⟨0, 0, 0⟩ ⟨10, 20, 0⟩ color).lines =
          [⟨⟨0, 0, 0⟩, ⟨0, 20, 0⟩, color⟩, ⟨⟨10, 0, 0⟩, ⟨10, 20, 0⟩, color⟩,
           ⟨⟨0, 0, 0⟩, ⟨10, 0, 0⟩, color⟩, ⟨⟨0, 20, 0⟩, ⟨10, 20, 0⟩, color⟩] := by
  refine ⟨AddQuad_lines _ _ _ _, ?_, ?_, fun color => AddQuad_lines _ _ _ _⟩
  · rw [AddQuad_lines, List.length_append]
    rfl
  · intro i hi
    rw [AddQuad_lines, List.getElem?_append_left hi]

/-- C2. `AddLine` appends exactly one record: the batch grows by one, every record
already in it keeps its position and value, and the new last record has the end
points `pointA`, `pointB` and the colour passed, or the colour `(1, 0, 0, 1)` when
none is passed. -/
theorem AddLine_appends_one {F : Type} [Zero F] [One F] (s : State F)
    (pointA pointB : Vec3 F) (color : Color F) :
    (AddLine s (.pointsColor pointA pointB color)).lines =
        s.lines ++ [⟨pointA, pointB, color⟩] ∧
      (AddLine s (.points pointA pointB)).lines =
        s.lines ++ [⟨pointA, pointB, ⟨1, 0, 0, 1⟩⟩] ∧
      ∀ args : LineArgs F,
        (AddLine s args).lines.length = s.lines.length + 1 ∧
        (∀ i, i < s.lines.length → (AddLine s args).lines[i]? = s.lines[i]?) ∧
        (AddLine s args).lines[s.lines.length]? = some args.construct := by
  refine ⟨rfl, rfl, fun args => ⟨?_, ?_, ?_⟩⟩
  · rw [AddLine_lines, List.length_append]
    rfl
  · intro i hi
    rw [AddLine_lines, List.getElem?_append_left hi]
  · rw [AddLine_lines]
    simp

/-- C3. After any sequence of `AddLine`, `AddQuad` (and `Clear`) calls from any
state, a following `Clear` leaves a batch of size 0. -/
theorem Clear_empties_batch {F : Type} [Zero F] [One F] (s : State F)
    (ops : List (BatchOp F)) :
    (Clear (runOps s ops)).lines.length = 0 ∧ (Clear (runOps s ops)).lines = [] :=
  ⟨rfl, rfl⟩

/-! ## Render -/

/-- C4. In every state reached by `Init` followed by any batch calls, with any
projection and view, `Render` returns and its OpenGL calls are exactly: line fill
mode, the shader program bound, `u_Proj` set to the projection, `u_View` set to the
view, the vertex array bound, the buffer bound with its three attributes enabled and
one `glBufferSubData` at offset 0 of `24 + 16 * n` bytes from the batch of `n` lines,
one instanced draw of 3 vertices with `n` as instance count, solid fill mode. All
steps are the ones claimed but the upload, which for two lines hands over 56 of
their 80 bytes, so the current batch is not uploaded. -/
theorem Render_call_sequence {F : Type} [Zero F] [One F] (be : Backend) (s0 : State F)
    (projection0 : List F) (ops : List (BatchOp F)) (projection view : List F) :
    Render (runOps (Init be projection0 s0).1 ops) projection view =
      { calls :=
          [.glPolygonMode .GL_FRONT_AND_BACK .GL_LINE,
           .glUseProgram be.createProgram,
           .glUniformMatrix4fv
             (toGLint (toGLuint (be.getUniformLocation be.createProgram u_Proj)))
             1 false projection,
           .glUniformMatrix4fv
             (toGLint (toGLuint (be.getUniformLocation be.createProgram u_View)))
             1 false view,
           .glBindVertexArray be.genVertexArray,
           .glBindBuffer .GL_ARRAY_BUFFER be.genBuffer,
           .glEnableVertexAttribArray 0,
           .glEnableVertexAttribArray 1,
           .glEnableVertexAttribArray 2,
           .glBufferSubData .GL_ARRAY_BUFFER 0
             (24 + 16 * (runOps (Init be projection0 s0).1 ops).lines.length)
             (runOps (Init be projection0 s0).1 ops).lines,
           .glDrawArraysInstanced .GL_TRIANGLES 0 3
             (runOps (Init be projection0 s0).1 ops).lines.length,
           .glPolygonMode .GL_FRONT_AND_BACK .GL_FILL],
        fault := none } ∧
      Render (runOps (Init sampleBackend identityMatrix State.initial).1 twoLines)
          identityMatrix identityMatrix =
        { calls :=
            [.glPolygonMode .GL_FRONT_AND_BACK .GL_LINE,
             .glUseProgram 1,
             .glUniformMatrix4fv 0 1 false identityMatrix,
             .glUniformMatrix4fv 1 1 false identityMatrix,
             .glBindVertexArray 5,
             .glBindBuffer .GL_ARRAY_BUFFER 4,
             .glEnableVertexAttribArray 0,
             .glEnableVertexAttribArray 1,
             .glEnableVertexAttribArray 2,
             .glBufferSubData .GL_ARRAY_BUFFER 0 56
               [⟨⟨0, 0, 0⟩, ⟨25, 25, 0⟩, ⟨0, 0, 1, 1⟩⟩, ⟨⟨0, 0, 0⟩, ⟨25, 25, 0⟩, ⟨0, 0, 1, 1⟩⟩],
             .glDrawArraysInstanced .GL_TRIANGLES 0 3 2,
             .glPolygonMode .GL_FRONT_AND_BACK .GL_FILL],
          fault := none } ∧
      56 < 2 * sizeof_Line ∧
      toGLint (toGLuint (-1)) = -1 :=
  ⟨Render_after_Init be s0 projection0 ops projection view, by decide, by decide, by decide⟩

/-! ## The geometry buffer -/

/-- C5. The byte length `Update` passes to `glBufferSubData` for `count` records at
position 0 is `24 + 16 * count`, not `count * 40`: 24 bytes for an empty batch, 56
for two lines and 8216 for 512 lines, where `count * 40` is 0, 80 and 20480. The two
agree for one line only. -/
theorem Update_byte_length {F : Type} (vb : VBO) (vec : List (Line F)) (count : Nat) :
    VBO.Update vb true vec count 0 =
        vb.Bind ++ [.glBufferSubData .GL_ARRAY_BUFFER 0 (24 + 16 * count) vec] ∧
      sizeof_Line = 40 ∧
      VBO.updateSize 0 = 24 ∧ VBO.updateSize 2 = 56 ∧ VBO.updateSize 512 = 8216 ∧
      VBO.updateSize 512 ≠ 512 * sizeof_Line ∧
      (VBO.updateSize count = count * sizeof_Line ↔ count = 1) := by
  refine ⟨rfl, rfl, rfl, rfl, rfl, by decide, ?_⟩
  simp only [VBO.updateSize, sizeof_Line, sizeof_Vec3, sizeof_Vec4, sizeof_float]
  omega

/-- C6. The byte size the constructor of the buffer passes to `glBufferData` is
`24 + 16 * 512 = 8216`, not `512 * 40 = 20480`: a record of 40 bytes at index `i`
lies inside the allocated bytes only for `i < 205`, so record 205 does not. -/
theorem VBO_allocation_size {F : Type} (be : Backend) (attrib : Nat) :
    GLCall.glBufferData .GL_ARRAY_BUFFER 8216 .GL_DYNAMIC_DRAW ∈
        (@VBO.new F be attrib).2 ∧
      (∀ size usage, GLCall.glBufferData .GL_ARRAY_BUFFER size usage ∈
        (@VBO.new F be attrib).2 → size = 8216) ∧
      VBO.allocationSize = 8216 ∧ VBO.allocationSize ≠ 512 * sizeof_Line ∧
      (∀ i, i * sizeof_Line + sizeof_Line ≤ VBO.allocationSize ↔ i < 205) ∧
      ¬ (205 * sizeof_Line + sizeof_Line ≤ VBO.allocationSize) := by
  refine ⟨?_, ?_, rfl, by decide, ?_, by decide⟩
  · simp [VBO.new, VBO.allocationSize, sizeof_Vec3, sizeof_Vec4, sizeof_float]
  · intro size usage h
    simp [VBO.new, VBO.allocationSize, sizeof_Vec3, sizeof_Vec4, sizeof_float] at h
    exact h.1
  · intro i
    simp only [VBO.allocationSize, sizeof_Line, sizeof_Vec3, sizeof_Vec4, sizeof_float]
    omega

/-! ## Capacity -/

/-- C7, as the code has it: there is no capacity check. After any sequence of
`Clear`, `AddLine` and `AddQuad` calls from the empty batch, the batch size is the
number of records added since the last `Clear` (one for an `AddLine`, four for an
`AddQuad`), so it is at most 512 exactly when that number is. `Render` has no check
either: after `Init` and these calls it returns, and its one draw call has that
number as instance count, whatever it is. -/
theorem batch_size_eq_pendingCount {F : Type} [Zero F] [One F] (ops : List (BatchOp F)) :
    (runOps State.initial ops).lines.length = pendingCount ops ∧
      ((runOps State.initial ops).lines.length ≤ 512 ↔ pendingCount ops ≤ 512) ∧
      ∀ (be : Backend) (projection0 projection view : List F),
        (Render (runOps (Init be projection0 State.initial).1 ops) projection view).fault =
          none ∧
        GLCall.glDrawArraysInstanced .GL_TRIANGLES 0 3 (pendingCount ops) ∈
          (Render (runOps (Init be projection0 State.initial).1 ops) projection view).calls ∧
        ∀ mode first count instances,
          GLCall.glDrawArraysInstanced mode first count instances ∈
            (Render (runOps (Init be projection0 State.initial).1 ops) projection view).calls →
          instances = pendingCount ops := by
  have h : (runOps (State.initial : State F) ops).lines.length = pendingCount ops :=
    runOps_length ops State.initial
  refine ⟨h, by rw [h], fun be projection0 projection view => ?_⟩
  rw [Render_after_Init, runOps_Init_length]
  refine ⟨rfl, by simp, ?_⟩
  intro mode first count instances hmem
  simp at hmem
  exact hmem.2.2.2

/-- The draw call of C7 at a concrete input: after `Init` and two `AddLine` calls the
draw call of `Render` has instance count 2. -/
theorem batch_size_eq_pendingCount_witness :
    GLCall.glDrawArraysInstanced .GL_TRIANGLES 0 3 2 ∈
        (Render (runOps (Init sampleBackend identityMatrix State.initial).1 twoLines)
          identityMatrix identityMatrix).calls ∧
      (2 : Nat) = pendingCount twoLines :=
  ⟨(batch_size_eq_pendingCount twoLines).2.2 sampleBackend identityMatrix identityMatrix
      identityMatrix |>.2.1,
    (batch_size_eq_pendingCount twoLines).2.2 sampleBackend identityMatrix identityMatrix
      identityMatrix |>.2.2 .GL_TRIANGLES 0 3 2
      ((batch_size_eq_pendingCount twoLines).2.2 sampleBackend identityMatrix identityMatrix
        identityMatrix |>.2.1)⟩

/-- C7 fails as stated: 513 `AddLine` calls from the empty batch leave 513 lines in
it, more than the 512 the buffer is meant for, and `Render` after `Init` then draws
513 instances. -/
theorem batch_size_exceeds_capacity :
    (runOps State.initial (List.replicate 513 (BatchOp.addLine sampleLine))).lines.length = 513 ∧
      ¬ ((runOps State.initial
            (List.replicate 513 (BatchOp.addLine sampleLine))).lines.length ≤ 512) ∧
      GLCall.glDrawArraysInstanced .GL_TRIANGLES 0 3 513 ∈
        (Render (runOps (Init sampleBackend identityMatrix State.initial).1
          (List.replicate 513 (BatchOp.addLine sampleLine))) identityMatrix
          identityMatrix).calls := by
  have h : ∀ s : State Int,
      (runOps s (List.replicate 513 (BatchOp.addLine sampleLine))).lines.length =
        s.lines.length + 513 := fun s => by
    rw [runOps_length, pendingAfter_foldl_replicate_addLine]
  refine ⟨h _, ?_, ?_⟩
  · rw [h]
    decide
  · have hl : (Init sampleBackend identityMatrix State.initial).1.lines.length = 0 := rfl
    rw [Render_after_Init, h, hl]
    simp only [List.mem_cons]
    tauto

/-! ## Shutdown -/

/-- C9, as the code has it: the table is keyed by `name.c_str()`. For every list of
uniform names registered at creation none of which contains a NUL character, and
every name, `SetMat4x4` fails with the lookup error exactly when the name is not in
the list (for any list: exactly when it is not the C string of a registered name).
After `Init`, `u_Proj` and `u_View` are found and every other name fails. -/
theorem SetMat4x4_fails_iff_unregistered {F : Type} (be : Backend) (vs fs : Str)
    (uniforms : List Str) (name : Str) (matrix : List F)
    (h : ∀ u ∈ uniforms, NUL ∉ u) :
    ((@Shader.new F be vs fs uniforms).1.SetMat4x4 name matrix = none ↔ name ∉ uniforms) ∧
      (∀ registered : List Str,
        (@Shader.new F be vs fs registered).1.SetMat4x4 name matrix = none ↔
          name ∉ registered.map c_str) ∧
      ∀ (projection : List F) (s : State F), ∃ sh,
        (Init be projection s).1.lineShader = some sh ∧
        sh.SetMat4x4 u_Proj matrix ≠ none ∧ sh.SetMat4x4 u_View matrix ≠ none ∧
        (sh.SetMat4x4 name matrix = none ↔ name ≠ u_Proj ∧ name ≠ u_View) := by
  refine ⟨?_, fun registered => Shader.new_SetMat4x4_eq_none_iff be vs fs registered name matrix,
    fun projection s => ⟨_, (congrArg State.lineShader (Init_eq be projection s).1), ?_, ?_, ?_⟩⟩
  · rw [Shader.new_SetMat4x4_eq_none_iff, map_c_str_eq_self uniforms h]
  · rw [ne_eq, Shader.SetMat4x4_eq_none_iff]
    simp
  · rw [ne_eq, Shader.SetMat4x4_eq_none_iff]
    simp
  · rw [Shader.SetMat4x4_eq_none_iff]
    simp

/-- C9 at a concrete input: with `u_Proj` and `u_View` registered, neither of which
has a NUL in it, the unregistered name `a NUL b` fails. -/
theorem SetMat4x4_fails_iff_unregistered_witness :
    (∀ u ∈ [u_Proj, u_View], NUL ∉ u) ∧
      (@Shader.new Int sampleBackend vsCode fsCode [u_Proj, u_View]).1.SetMat4x4
        nameWithNUL identityMatrix = none :=
  ⟨by decide,
    (SetMat4x4_fails_iff_unregistered sampleBackend vsCode fsCode [u_Proj, u_View]
      nameWithNUL identityMatrix (by decide)).1.mpr (by decide)⟩

/-- C9 fails as stated: when the name `a NUL b` is registered, the table holds the
key `a`, so `SetMat4x4` fails for the registered name `a NUL b` and finds the name
`a`, which is not in the list. -/
theorem SetMat4x4_registered_name_fails :
    nameWithNUL ∈ [nameWithNUL] ∧
      (@Shader.new Int sampleBackend vsCode fsCode [nameWithNUL]).1.SetMat4x4
        nameWithNUL identityMatrix = none ∧
      ['a'] ∉ [nameWithNUL] ∧
      (@Shader.new Int sampleBackend vsCode fsCode [nameWithNUL]).1.SetMat4x4
        ['a'] identityMatrix ≠ none := by
  refine ⟨by decide, ?_, by decide, ?_⟩
  · rw [Shader.new_SetMat4x4_eq_none_iff]
    decide
  · rw [ne_eq, Shader.new_SetMat4x4_eq_none_iff]
    decide

/-! ## Calls outside the Ready state -/

/-- C10, as the code has it: neither call checks the state. With no shader, vertex
array or geometry buffer present (before `Init`, after `Shutdown`), `AddLine`
appends the record to the batch as it does in any state and leaves the three
pointers empty; `Render` switches to line fill mode and then calls `Bind` through
the empty `lineShader` pointer, which ends the run with no further call. -/
theorem AddLine_Render_outside_Ready {F : Type} [Zero F] [One F] (s : State F)
    (args : LineArgs F) (projection view : List F)
    (h : s.lineShader = none ∧ s.vao = none ∧ s.vbo = none) :
    (AddLine s args).lines = s.lines ++ [args.construct] ∧
      (AddLine s args).lines.length = s.lines.length + 1 ∧
      (AddLine s args).lineShader = none ∧ (AddLine s args).vao = none ∧
      (AddLine s args).vbo = none ∧
      Render s projection view =
        ⟨[.glPolygonMode .GL_FRONT_AND_BACK .GL_LINE], some .nullDereference⟩ := by
  obtain ⟨h1, h2, h3⟩ := h
  refine ⟨rfl, ?_, h1, h2, h3, ?_⟩
  · rw [AddLine_lines, List.length_append]
    rfl
  · unfold Render
    rw [h1]

/-- C10 at a concrete input: the state before `Init`. -/
theorem AddLine_Render_outside_Ready_witness :
    ((State.initial : State Int).lineShader = none ∧ (State.initial : State Int).vao = none ∧
        (State.initial : State Int).vbo = none) ∧
      (AddLine State.initial sampleLine).lines =
        [⟨⟨0, 0, 0⟩, ⟨25, 25, 0⟩, ⟨0, 0, 1, 1⟩⟩] :=
  ⟨⟨rfl, rfl, rfl⟩,
    (AddLine_Render_outside_Ready State.initial sampleLine identityMatrix identityMatrix
      ⟨rfl, rfl, rfl⟩).1⟩

/-- C10 fails as stated: `AddLine` before `Init`, and `AddLine` after `Init` and
`Shutdown`, are not rejected; each changes the batch, which then holds one line. -/
theorem AddLine_not_rejected_outside_Ready :
    (AddLine (State.initial : State Int) sampleLine).lines ≠
        (State.initial : State Int).lines ∧
      (AddLine (State.initial : State Int) sampleLine).lines.length = 1 ∧
      (Shutdown (Init sampleBackend identityMatrix State.initial).1).1 = State.initial ∧
      (AddLine (Shutdown (Init sampleBackend identityMatrix State.initial).1).1
        sampleLine).lines.length = 1 := by
  refine ⟨?_, rfl, rfl, rfl⟩
  simp [AddLine, State.initial]

end Linow
